import Mathlib

/-!
Shallow embedding of `cli/crmint_commands/utils/shared.py` (crmint), a
Python 2 deployment helper.  Pure functions become Lean functions; the
subprocess and filesystem interactions are modelled by passing the outcome
of each external effect (captured output, exit status, existing tree) as an
explicit argument.  Strings model Python byte strings.
-/

/-- Python default `str.strip` removes these six whitespace characters from
both ends of a string. -/
def pyIsSpace (c : Char) : Bool :=
  c == ' ' || c == '\t' || c == '\n' || c == '\r' || c == '\x0b' || c == '\x0c'

/-- Model of Python `s.strip()` with no argument. -/
def pyStrip (s : String) : String :=
  String.mk (((s.data.dropWhile pyIsSpace).reverse.dropWhile pyIsSpace).reverse)

/-- Truthiness of an optional string attribute in Python: `None` and the
empty string are falsy, every other string is truthy.  `none` models an
attribute left unset ( `workdir` before `before_hook` runs). -/
def pyFalsy : Option String → Bool
  | none => true
  | some s => s.isEmpty

/-- Python 2 comparison `s != n` between a str `s` and an int `n`: values
of different built-in types never compare equal in Python 2, so the result
is `True` for every string, including the empty captured stdout of a
successful `curl` invocation. -/
def pyStrNeInt (s : String) (n : Int) : Bool := true

/-- The substring relation used to state that one string embeds another:
the character list of `needle` is an infix of the character list of
`hay`. -/
def containsStr (hay needle : String) : Prop := needle.data <:+: hay.data

/-- Outcome of one external process started with `subprocess.Popen` and
drained with `communicate()`: exit status, captured stdout, captured
stderr. -/
structure CommandResult where
  returncode : Int
  out : String
  err : String
deriving DecidableEq

/-- What `execute_command` produces: the blue header line echoed before the
command runs, the red failure-report lines (empty when no report is
emitted), and the returned triple `(returncode, out, err)`. -/
structure ExecOutput where
  header : String
  failure : List String
  ret : Int × String × String
deriving DecidableEq

/-- Embedding of `execute_command(step_name, commands, cwd, report_empty_err)`.
The subprocess result is passed in as `res`.  Source behaviour: echo the
header, run the command, and when `pipe.returncode != 0 and (len(err) > 0
or report_empty_err)` echo the message `"\n%s: %s %s" % (step_name, err,
("({})".format(out) if out else ""))` followed by `"Command: %s\n" %
commands`; always return `(returncode, out, err)`.  `cwd` only affects the
subprocess and is unused here. -/
def execute_command (step_name commands cwd : String) (report_empty_err : Bool)
    (res : CommandResult) : ExecOutput :=
  let header := "---> " ++ step_name
  let failure :=
    if res.returncode ≠ 0 ∧ (res.err.length > 0 ∨ report_empty_err = true) then
      ["\n" ++ (step_name ++ (": " ++ (res.err ++ (" " ++
          (if res.out = "" then "" else "(" ++ (res.out ++ ")")))))),
       "Command: " ++ (commands ++ "\n")]
    else []
  ⟨header, failure, (res.returncode, res.out, res.err)⟩

/-- The `gcloud` invocation prefix used by `get_default_stage_name`. -/
def gcloud_command : String := "$GOOGLE_CLOUD_SDK/bin/gcloud --quiet"

/-- The single command string `get_default_stage_name` runs. -/
def get_default_stage_name_command : String :=
  gcloud_command ++ " config get-value project 2>/dev/null"

/-- Embedding of `get_default_stage_name`.  The gcloud subprocess outcome is
passed in as `res`.  `Except.error 1` models `exit(1)`: the process
terminates with status 1 and no further steps execute; `Except.ok` carries
the stripped captured stdout. -/
def get_default_stage_name (res : CommandResult) : Except Nat String :=
  match (execute_command "Get current project identifier"
      get_default_stage_name_command "." true res).ret with
  | (status, out, _e) => if status ≠ 0 then Except.error 1 else Except.ok (pyStrip out)

/-- Embedding of `get_stage_file`: the pure template
`"{}/{}.py".format(constants.STAGE_DIR, stage_name)`.  Modelled from the
spec: the module `crmint_commands.utils.constants` is not under `src/`, so
`constants.STAGE_DIR` (the stage-definitions directory) is left abstract as
the parameter `stage_dir`. -/
def get_stage_file (stage_dir stage_name : String) : String :=
  stage_dir ++ "/" ++ (stage_name ++ ".py")

/-- Embedding of `check_stage_file`: `os.path.isfile` on the stage file
path, abstracted as the filesystem oracle `isfile` (which, like
`os.path.isfile`, answers false rather than raising).  Returns `false` when
the file is missing and `true` otherwise. -/
def check_stage_file (isfile : String → Bool) (stage_dir stage_name : String) : Bool :=
  isfile (get_stage_file stage_dir stage_name)

/-- The module-level tuple `IGNORE_PATTERNS` from the source, as the list of
its elements. -/
def IGNORE_PATTERNS : List String :=
  ["^.idea", "^.git", "*.pyc", "frontend/node_modules", "backends/data/*.json"]

/-- One compiled piece of an fnmatch pattern: `*` becomes match-anything,
`?` becomes match-one-character, anything else is escaped by `re.escape`
into a regex literal that matches exactly its own characters. -/
inductive GlobPiece where
  | star : GlobPiece
  | anyChar : GlobPiece
  | lit : List Char → GlobPiece
deriving DecidableEq

/-- One iteration step of `fnmatch.translate` as the source exercises it.
The source calls `shutil.ignore_patterns(IGNORE_PATTERNS)` without
unpacking the tuple, so fnmatch receives the whole tuple as its single
pattern; `translate` iterates that pattern, and iterating a Python tuple
yields its element strings.  Each element is compared against the
one-character strings "*", "?", "["; no element of `IGNORE_PATTERNS`
equals "[", so the character-class branch is unreachable and is omitted
here, and every non-wildcard element is escaped into a literal. -/
def translateElem (e : String) : GlobPiece :=
  if e = "*" then GlobPiece.star
  else if e = "?" then GlobPiece.anyChar
  else GlobPiece.lit e.data

/-- Matching a compiled fnmatch pattern against a full name, anchored at
both ends exactly as `re.match` plus the trailing `\Z` produced by
`fnmatch.translate` are. -/
def matchPieces : List GlobPiece → List Char → Bool
  | [], cs => cs.isEmpty
  | GlobPiece.lit l :: ps, cs => l.isPrefixOf cs && matchPieces ps (cs.drop l.length)
  | GlobPiece.anyChar :: ps, cs =>
    match cs with
    | [] => false
    | _ :: t => matchPieces ps t
  | GlobPiece.star :: ps, cs =>
    (List.range (cs.length + 1)).any (fun k => matchPieces ps (cs.drop k))

/-- The ignore predicate actually produced by
`shutil.ignore_patterns(IGNORE_PATTERNS)` in the source: a directory entry
name is ignored exactly when it matches the single pattern that is the
whole `IGNORE_PATTERNS` tuple. -/
def ignoredName (n : String) : Bool :=
  matchPieces (IGNORE_PATTERNS.map translateElem) n.data

/-- A file in a directory tree, as its path components paired with its
content.  Directories are implicit in the paths; `shutil.copytree` applies
the ignore callable to the entry names at every level, so a file survives
the copy exactly when none of its path components is ignored. -/
abbrev PathFile := List String × String

/-- Embedding of the `shutil.copytree(constants.PROJECT_DIR, target_dir,
ignore=shutil.ignore_patterns(IGNORE_PATTERNS))` call in `before_hook`. -/
def copytree (src : List PathFile) : List PathFile :=
  src.filter (fun e => !(e.1.any ignoredName))

/-- The `if os.path.exists(target_dir): shutil.rmtree(target_dir)` step:
whatever tree existed at the working directory, nothing of it remains. -/
def rmtree_if_exists (prior : List PathFile) : List PathFile := []

/-- Opening a path with mode "w" and writing `content`: any previous file
at that path is replaced. -/
def setFile (t : List PathFile) (p : List String) (content : String) : List PathFile :=
  t.filter (fun e => !(e.1 == p)) ++ [(p, content)]

/-- The glob `"%s/backends/data/service-account.json.*" % stage.workdir`:
it matches exactly the files directly inside `backends/data` whose name
starts with `service-account.json.` (a glob star also matches the empty
string). -/
def is_service_account_example (p : List String) : Bool :=
  match p with
  | [a, b, n] => a == "backends" && b == "data" && "service-account.json.".isPrefixOf n
  | _ => false

/-- The literal written to `backends/data/app.json` by `before_hook`. -/
def app_json_content : String :=
  "\n              \x7b\n                \"notification_sender_email\": \"$notification_sender_email\",\n                \"app_title\": \"$app_title\"\n              \x7d\n              "

/-- The literal written to `frontend/src/environments/environment.prod.ts`
by `before_hook`. -/
def environment_prod_content : String :=
  "\n              export const environment = \x7b\n                production: true,\n                app_title: \"$app_title\",\n                enabled_stages: $enabled_stages\n              \x7d\n              "

/-- The content written to `backends/instance/config.py`: a single
assignment of the cloud database URI. -/
def db_config_content (uri : String) : String :=
  "SQLALCHEMY_DATABASE_URI=\"" ++ (uri ++ "\"")

/-- The filesystem effect of `before_hook` on the working directory, for a
run in which every I/O step succeeds: delete any prior tree, copy the
project source with the ignore callable, then overwrite the database
config, remove service-account example files, and write the backend app
metadata and the frontend production environment file. -/
def before_hook_fs (src : List PathFile) (cloud_uri : String)
    (prior : List PathFile) : List PathFile :=
  let t0 := rmtree_if_exists prior ++ copytree src
  let t1 := setFile t0 ["backends", "instance", "config.py"] (db_config_content cloud_uri)
  let t2 := t1.filter (fun e => !(is_service_account_example e.1))
  let t3 := setFile t2 ["backends", "data", "app.json"] app_json_content
  setFile t3 ["frontend", "src", "environments", "environment.prod.ts"]
    environment_prod_content

/-- The stage configuration object.  The first seven fields come from the
stage definition file; the remaining fields are absent (`none`) until
`before_hook` sets them, except `workdir`, which a stage file may set
ahead of time. -/
structure Stage where
  project_id_gae : String
  project_region : String
  db_instance_name : String
  db_username : String
  db_password : String
  db_name : String
  service_account_file : String
  workdir : Option String
  stage_name : Option String
  db_instance_conn_name : Option String
  cloudsql_dir : Option String
  cloud_db_uri : Option String
  local_db_uri : Option String
deriving DecidableEq

/-- The attribute mutations of `before_hook(stage, stage_name)`.  The
Python code mutates `stage` in place and then returns the very same
object; here the updated record is returned.  Every assignment is a plain
string template, with no validation of the component values. -/
def before_hook_stage (s : Stage) (stage_name : String) : Stage :=
  let workdir :=
    if pyFalsy s.workdir then "/tmp/" ++ s.project_id_gae else s.workdir.getD ""
  let conn := s.project_id_gae ++ ":" ++ (s.project_region ++ (":" ++ s.db_instance_name))
  let cloud_uri := "mysql+mysqldb://" ++ s.db_username ++ ":" ++ s.db_password ++
      "@/" ++ s.db_name ++ "?unix_socket=" ++ ("/cloudsql/" ++ conn)
  let local_uri := "mysql+mysqldb://" ++ s.db_username ++ ":" ++ s.db_password ++
      "@/" ++ s.db_name ++ "?unix_socket=" ++ ("/tmp/cloudsql" ++ ("/" ++ conn))
  { s with
    stage_name := some stage_name
    workdir := some workdir
    db_instance_conn_name := some conn
    cloudsql_dir := some "/tmp/cloudsql"
    cloud_db_uri := some cloud_uri
    local_db_uri := some local_uri }

/-- The possible I/O failures of the five wrapped sub-steps of
`before_hook`: `some m` means the sub-step raises an exception whose
`.message` is `m`, `none` means it succeeds. -/
structure IOOutcomes where
  copy_err : Option String
  db_config_err : Option String
  sa_remove_err : Option String
  app_json_err : Option String
  env_prod_err : Option String
deriving DecidableEq

/-- The wrapped message raised when sub-step `i` of `before_hook` fails
with inner message `m`, exactly as formatted by the source. -/
def before_hook_step_message (i : Nat) (m : String) : String :=
  if i = 0 then "Stage 1 error when copying to workdir: " ++ m
  else if i = 1 then "Stage 1 error when writing db config: " ++ m
  else if i = 2 then "Stage 1 error when copying service account file: " ++ m
  else if i = 3 then "Stage 1 error when writing app data for backend: " ++ m
  else "Stage 1 error when writing env data for frontend: " ++ m

/-- The control flow of `before_hook` over its five wrapped sub-steps
(tree copy, db-config write, service-account example removal, app-metadata
write, frontend environment write): the list of sub-steps that start
executing, and either the wrapped exception of the first failing sub-step
or success.  Later sub-steps never run after a failure, and nothing done
by earlier sub-steps is rolled back. -/
def before_hook_run (o : IOOutcomes) : List Nat × Except String Unit :=
  match o.copy_err with
  | some m => ([0], Except.error (before_hook_step_message 0 m))
  | none =>
    match o.db_config_err with
    | some m => ([0, 1], Except.error (before_hook_step_message 1 m))
    | none =>
      match o.sa_remove_err with
      | some m => ([0, 1, 2], Except.error (before_hook_step_message 2 m))
      | none =>
        match o.app_json_err with
        | some m => ([0, 1, 2, 3], Except.error (before_hook_step_message 3 m))
        | none =>
          match o.env_prod_err with
          | some m => ([0, 1, 2, 3, 4], Except.error (before_hook_step_message 4 m))
          | none => ([0, 1, 2, 3, 4], Except.ok ())

/-- The fixed download URL for the proxy binary. -/
def cloud_sql_download_link : String :=
  "https://dl.google.com/cloudsql/cloud_sql_proxy.linux.amd64"

/-- The per-user proxy binary path `"{}/bin/cloud_sql_proxy".format(home_path)`. -/
def home_bin_proxy (home : String) : String := home ++ "/bin/cloud_sql_proxy"

/-- Inputs to the fallback-download branch of `check_variables` (reached
when neither the system proxy binary nor the per-user one exists): the
value of `os.environ["CLOUD_SQL_PROXY"]` before the call (`none` when the
variable is absent) and the captured stdout of the `curl` subprocess. -/
structure DownloadBranchInput where
  cloud_sql_proxy_env : Option String
  curl_stdout : String
deriving DecidableEq

/-- Result of the fallback-download branch: whether the warning
`[w]Could not download cloud sql proxy` was echoed, and the value the
`CLOUD_SQL_PROXY` environment variable is set to afterwards. -/
structure DownloadBranchResult where
  warned : Bool
  cloud_sql_proxy_set : String
deriving DecidableEq

/-- Embedding of the fallback-download branch of `check_variables`.  The
source interpolates `os.environ["CLOUD_SQL_PROXY"]` into the curl command
(raising `KeyError` when the variable is absent, modelled by
`Except.error`), runs curl, binds `download_status` to the captured stdout
(`communicate()[0]`), warns when `download_status != 0`, and finally sets
`os.environ["CLOUD_SQL_PROXY"]` to the per-user path. -/
def check_variables_download_branch (home : String) (inp : DownloadBranchInput) :
    Except String DownloadBranchResult :=
  match inp.cloud_sql_proxy_env with
  | none => Except.error "KeyError: CLOUD_SQL_PROXY"
  | some target =>
    let download_command := "curl -L " ++ cloud_sql_download_link ++ " -o " ++ target
    let download_status := inp.curl_stdout
    let warned := pyStrNeInt download_status 0
    Except.ok ⟨warned, home_bin_proxy home⟩

/-- The observable outcome of the `subprocess.Popen` call made by
`install_requirements`: whether `Popen` itself raised (the only thing the
bare `except` can catch), and the exit status of the pip process, which
the source never reads because the process is neither waited on nor
communicated with. -/
structure PipInvocation where
  spawn_failed : Bool
  installer_exit : Int
deriving DecidableEq

/-- Embedding of `install_requirements`: raises the generic message only
when spawning the installer process fails; the exit status of the
installer is ignored. -/
def install_requirements (inv : PipInvocation) : Except String Unit :=
  if inv.spawn_failed then Except.error "Requirements could not be installed"
  else Except.ok ()

/-- Cancelling a common right factor of a string concatenation. -/
theorem string_append_right_cancel (a b c : String) (h : a ++ c = b ++ c) : a = b := by
  have hd := congrArg String.data h
  simp only [String.data_append] at hd
  exact String.ext (List.append_cancel_right hd)

/-- A string embeds any middle factor of a right-nested decomposition. -/
theorem containsStr_of_split (hay a n b : String) (h : hay = a ++ (n ++ b)) :
    containsStr hay n := by
  subst h
  exact ⟨a.data, b.data, by simp⟩

/-- A concatenation embeds its right factor. -/
theorem containsStr_append_right (a n : String) : containsStr (a ++ n) n :=
  ⟨a.data, [], by simp⟩

/-- Extending a string on the right preserves every embedded substring. -/
theorem containsStr_append_of_contains (p m n : String) (h : containsStr p n) :
    containsStr (p ++ m) n := by
  obtain ⟨a, b, hab⟩ := h
  exact ⟨a, b ++ m.data, by rw [String.data_append, ← hab]; simp⟩

/-- C1: `execute_command` returns the triple (exit code, captured stdout,
captured stderr) without throwing, and it emits a failure report exactly
when the exit code is non-zero and (stderr is non-empty or
`report_empty_err` is true); the report contains the step label, the
captured stderr, the captured stdout when there is any, and the literal
command string; when the exit code is 0 no failure text is emitted. -/
theorem execute_command_failure_report (sn cmds cwd : String) (ree : Bool)
    (res : CommandResult) :
    (execute_command sn cmds cwd ree res).ret = (res.returncode, res.out, res.err)
    ∧ ((execute_command sn cmds cwd ree res).failure ≠ [] ↔
        (res.returncode ≠ 0 ∧ (res.err.length > 0 ∨ ree = true)))
    ∧ (res.returncode = 0 → (execute_command sn cmds cwd ree res).failure = [])
    ∧ (res.returncode ≠ 0 → (res.err.length > 0 ∨ ree = true) →
        ∃ l1 l2, (execute_command sn cmds cwd ree res).failure = [l1, l2]
          ∧ containsStr l1 sn
          ∧ containsStr l1 res.err
          ∧ (res.out ≠ "" → containsStr l1 res.out)
          ∧ containsStr l2 cmds) := by
  refine ⟨rfl, ?_, ?_, ?_⟩
  · by_cases hc : res.returncode ≠ 0 ∧ (res.err.length > 0 ∨ ree = true)
    · simp [execute_command, hc]
    · simp [execute_command, hc]
  · intro h
    simp [execute_command, h]
  · intro h1 h2
    refine ⟨"\n" ++ (sn ++ (": " ++ (res.err ++ (" " ++
          (if res.out = "" then "" else "(" ++ (res.out ++ ")")))))),
        "Command: " ++ (cmds ++ "\n"), ?_, ?_, ?_, ?_, ?_⟩
    · simp [execute_command, h1, h2]
    · exact containsStr_of_split _ "\n" sn
        (": " ++ (res.err ++ (" " ++
          (if res.out = "" then "" else "(" ++ (res.out ++ ")"))))) rfl
    · exact containsStr_of_split _ ("\n" ++ sn ++ ": ") res.err
        (" " ++ (if res.out = "" then "" else "(" ++ (res.out ++ ")")))
        (by simp [String.append_assoc])
    · intro hout
      refine containsStr_of_split _ ("\n" ++ sn ++ ": " ++ res.err ++ " " ++ "(")
        res.out (")") ?_
      simp [hout, String.append_assoc]
      rw [(by decide : (" (" : String) = " " ++ "("), String.append_assoc]
    · exact containsStr_of_split _ "Command: " cmds "\n" rfl

/-- Witness for C1 at a concrete failing command. -/
theorem execute_command_failure_report_witness :
    (execute_command "step" "ls" "." false ⟨1, "o", "e"⟩).failure ≠ [] := by
  have h := execute_command_failure_report "step" "ls" "." false ⟨1, "o", "e"⟩
  exact h.2.1.mpr (by decide)

/-- C5: `get_default_stage_name` terminates the process with exit status 1
when the project-lookup command exits non-zero, and otherwise returns the
captured stdout stripped of surrounding whitespace. -/
theorem get_default_stage_name_spec (res : CommandResult) :
    (res.returncode ≠ 0 → get_default_stage_name res = Except.error 1)
    ∧ (res.returncode = 0 → get_default_stage_name res = Except.ok (pyStrip res.out)) := by
  constructor
  · intro h
    simp [get_default_stage_name, execute_command, h]
  · intro h
    simp [get_default_stage_name, execute_command, h]

/-- Witness for C5: a failing lookup exits with status 1, a successful one
returns the stripped stdout. -/
theorem get_default_stage_name_spec_witness :
    get_default_stage_name ⟨1, "", ""⟩ = Except.error 1
    ∧ get_default_stage_name ⟨0, " crmint-project \n", ""⟩ = Except.ok "crmint-project" := by
  constructor
  · exact (get_default_stage_name_spec ⟨1, "", ""⟩).1 (by decide)
  · have h := (get_default_stage_name_spec ⟨0, " crmint-project \n", ""⟩).2 rfl
    have h2 : pyStrip " crmint-project \n" = "crmint-project" := by decide
    rw [h, h2]

/-- C9: `get_stage_file` is the pure template `stage_dir/<name>.py`,
independent of the filesystem, and `check_stage_file` answers exactly what
the `isfile` oracle answers on that path, totally (it never throws). -/
theorem get_stage_file_pure_template (stage_dir n : String) (isfile : String → Bool) :
    get_stage_file stage_dir n = stage_dir ++ "/" ++ (n ++ ".py")
    ∧ (check_stage_file isfile stage_dir n = false ↔
        isfile (stage_dir ++ "/" ++ (n ++ ".py")) = false)
    ∧ (check_stage_file isfile stage_dir n = true ↔
        isfile (stage_dir ++ "/" ++ (n ++ ".py")) = true) :=
  ⟨rfl, Iff.rfl, Iff.rfl⟩

/-- Witness for C9 at a concrete stage name and empty filesystem. -/
theorem get_stage_file_pure_template_witness :
    get_stage_file "stage_variables" "foo" =
      "stage_variables" ++ "/" ++ ("foo" ++ ".py")
    ∧ (check_stage_file (fun _ => false) "stage_variables" "foo" = false ↔
        (fun _ : String => false) ("stage_variables" ++ "/" ++ ("foo" ++ ".py")) = false)
    ∧ (check_stage_file (fun _ => false) "stage_variables" "foo" = true ↔
        (fun _ : String => false) ("stage_variables" ++ "/" ++ ("foo" ++ ".py")) = true) :=
  get_stage_file_pure_template "stage_variables" "foo" (fun _ => false)

/-- C2: after `before_hook`, the stage carries `stage_name`; `workdir`
defaults to `/tmp/<project_id_gae>` exactly when it was unset and is kept
otherwise; the connection name is `project:region:instance`; the cloud DB
URI embeds the socket path `/cloudsql/<connection-name>` and the local DB
URI embeds `<cloudsql_dir>/<connection-name>` with the fixed proxy
directory — all pure string templates, for arbitrary component values. -/
theorem before_hook_stage_templates (s : Stage) (name : String) :
    (before_hook_stage s name).stage_name = some name
    ∧ (pyFalsy s.workdir = true →
        (before_hook_stage s name).workdir = some ("/tmp/" ++ s.project_id_gae))
    ∧ (pyFalsy s.workdir = false → (before_hook_stage s name).workdir = s.workdir)
    ∧ (before_hook_stage s name).db_instance_conn_name =
        some (s.project_id_gae ++ ":" ++ (s.project_region ++ (":" ++ s.db_instance_name)))
    ∧ (before_hook_stage s name).cloudsql_dir = some "/tmp/cloudsql"
    ∧ (∃ uri, (before_hook_stage s name).cloud_db_uri = some uri
        ∧ containsStr uri ("/cloudsql/" ++
            (s.project_id_gae ++ ":" ++ (s.project_region ++ (":" ++ s.db_instance_name)))))
    ∧ (∃ uri, (before_hook_stage s name).local_db_uri = some uri
        ∧ containsStr uri ("/tmp/cloudsql" ++ ("/" ++
            (s.project_id_gae ++ ":" ++ (s.project_region ++ (":" ++ s.db_instance_name)))))) := by
  refine ⟨rfl, ?_, ?_, rfl, rfl, ⟨_, rfl, ?_⟩, ⟨_, rfl, ?_⟩⟩
  · intro h
    simp [before_hook_stage, h]
  · intro h
    cases hw : s.workdir with
    | none => simp [pyFalsy, hw] at h
    | some w =>
      have hempty : w.isEmpty = false := by simpa [pyFalsy, hw] using h
      simp [before_hook_stage, hw, pyFalsy, hempty]
  · exact containsStr_append_right _ _
  · exact containsStr_append_right _ _

/-- Witness for C2 at a concrete stage with `workdir` unset. -/
theorem before_hook_stage_templates_witness :
    (before_hook_stage
      ⟨"p", "r", "i", "u", "pw", "db", "sa", none, none, none, none, none, none⟩
      "prod").workdir = some "/tmp/p" := by
  have h := before_hook_stage_templates
    ⟨"p", "r", "i", "u", "pw", "db", "sa", none, none, none, none, none, none⟩ "prod"
  have h2 := h.2.1 (by decide)
  rw [h2]
  decide

/-- C10: `before_hook` only sets `stage_name`, `workdir` (when previously
unset), `db_instance_conn_name`, `cloudsql_dir` (always `/tmp/cloudsql`),
`cloud_db_uri` and `local_db_uri`; every other stage attribute is left
unchanged.  The Python code mutates the stage in place and returns the
same object; the embedding returns the updated record. -/
theorem before_hook_stage_frame (s : Stage) (name : String) :
    (before_hook_stage s name).project_id_gae = s.project_id_gae
    ∧ (before_hook_stage s name).project_region = s.project_region
    ∧ (before_hook_stage s name).db_instance_name = s.db_instance_name
    ∧ (before_hook_stage s name).db_username = s.db_username
    ∧ (before_hook_stage s name).db_password = s.db_password
    ∧ (before_hook_stage s name).db_name = s.db_name
    ∧ (before_hook_stage s name).service_account_file = s.service_account_file
    ∧ (before_hook_stage s name).stage_name = some name
    ∧ (before_hook_stage s name).cloudsql_dir = some "/tmp/cloudsql"
    ∧ (pyFalsy s.workdir = false → (before_hook_stage s name).workdir = s.workdir)
    ∧ (pyFalsy s.workdir = true →
        (before_hook_stage s name).workdir = some ("/tmp/" ++ s.project_id_gae))
    ∧ (before_hook_stage s name).db_instance_conn_name =
        some (s.project_id_gae ++ ":" ++ (s.project_region ++ (":" ++ s.db_instance_name)))
    ∧ (∃ u, (before_hook_stage s name).cloud_db_uri = some u)
    ∧ (∃ u, (before_hook_stage s name).local_db_uri = some u) := by
  refine ⟨rfl, rfl, rfl, rfl, rfl, rfl, rfl, rfl, rfl, ?_, ?_, rfl, ⟨_, rfl⟩, ⟨_, rfl⟩⟩
  · intro h
    cases hw : s.workdir with
    | none => simp [pyFalsy, hw] at h
    | some w =>
      have hempty : w.isEmpty = false := by simpa [pyFalsy, hw] using h
      simp [before_hook_stage, hw, pyFalsy, hempty]
  · intro h
    simp [before_hook_stage, h]

/-- Witness for C10 at a concrete stage with `workdir` preset. -/
theorem before_hook_stage_frame_witness :
    (before_hook_stage
      ⟨"p", "r", "i", "u", "pw", "db", "sa", some "/wd", none, none, none, none, none⟩
      "dev").db_username = "u"
    ∧ (before_hook_stage
      ⟨"p", "r", "i", "u", "pw", "db", "sa", some "/wd", none, none, none, none, none⟩
      "dev").workdir = some "/wd" := by
  have h := before_hook_stage_frame
    ⟨"p", "r", "i", "u", "pw", "db", "sa", some "/wd", none, none, none, none, none⟩ "dev"
  exact ⟨h.2.2.2.1, h.2.2.2.2.2.2.2.2.2.1 (by decide)⟩

/-- C3 (failing evaluation): a source tree containing the file `x.pyc` is
copied verbatim into the working directory — the exclusion set is not
honored, because `shutil.ignore_patterns` receives the whole
`IGNORE_PATTERNS` tuple as one pattern instead of the unpacked patterns,
and no real entry name matches that concatenated pattern. -/
theorem before_hook_copies_pyc_file :
    (["x.pyc"], "bytecode") ∈
      before_hook_fs [(["x.pyc"], "bytecode")] "mysql+mysqldb://cloud" [] := by
  decide

/-- C4: preparing the working directory is idempotent — the prior content
at the target path is destroyed and the result is a function of the source
tree and the stage configuration only, so two successive runs (and any two
runs over different prior states) produce identical content. -/
theorem before_hook_workdir_idempotent (src : List PathFile) (uri : String)
    (prior : List PathFile) :
    before_hook_fs src uri (before_hook_fs src uri prior) =
      before_hook_fs src uri prior := rfl

/-- C6: each of the five wrapped sub-steps of `before_hook`, when it is the
first to fail, aborts the run with a stage-numbered message naming that
sub-step, wrapped around the inner exception message; later sub-steps do
not execute; distinct sub-steps produce distinct messages. -/
theorem before_hook_error_wrapping (o : IOOutcomes) (m : String) :
    (o.copy_err = some m →
      before_hook_run o = ([0], Except.error (before_hook_step_message 0 m)))
    ∧ (o.copy_err = none → o.db_config_err = some m →
      before_hook_run o = ([0, 1], Except.error (before_hook_step_message 1 m)))
    ∧ (o.copy_err = none → o.db_config_err = none → o.sa_remove_err = some m →
      before_hook_run o = ([0, 1, 2], Except.error (before_hook_step_message 2 m)))
    ∧ (o.copy_err = none → o.db_config_err = none → o.sa_remove_err = none →
      o.app_json_err = some m →
      before_hook_run o = ([0, 1, 2, 3], Except.error (before_hook_step_message 3 m)))
    ∧ (o.copy_err = none → o.db_config_err = none → o.sa_remove_err = none →
      o.app_json_err = none → o.env_prod_err = some m →
      before_hook_run o = ([0, 1, 2, 3, 4], Except.error (before_hook_step_message 4 m)))
    ∧ (∀ i j, i < 5 → j < 5 → i ≠ j →
      before_hook_step_message i m ≠ before_hook_step_message j m)
    ∧ (∀ i, i < 5 → containsStr (before_hook_step_message i m) "Stage 1") := by
  obtain ⟨c, d, sa, a, e⟩ := o
  refine ⟨?_, ?_, ?_, ?_, ?_, ?_, ?_⟩
  · intro h1
    subst h1
    rfl
  · intro h1 h2
    subst h1; subst h2
    rfl
  · intro h1 h2 h3
    subst h1; subst h2; subst h3
    rfl
  · intro h1 h2 h3 h4
    subst h1; subst h2; subst h3; subst h4
    rfl
  · intro h1 h2 h3 h4 h5
    subst h1; subst h2; subst h3; subst h4; subst h5
    rfl
  · intro i j hi hj hne
    interval_cases i <;> interval_cases j <;>
      first
        | exact absurd rfl hne
        | exact fun h => absurd (string_append_right_cancel _ _ _ h) (by decide)
  · intro i hi
    interval_cases i <;>
      exact containsStr_append_of_contains _ m "Stage 1"
        (show ("Stage 1").data <:+: _ by decide)

/-- Witness for C6: a failing tree copy aborts with the first wrapped
message and only the first sub-step runs. -/
theorem before_hook_error_wrapping_witness :
    before_hook_run ⟨some "boom", none, none, none, none⟩ =
      ([0], Except.error (before_hook_step_message 0 "boom")) :=
  (before_hook_error_wrapping ⟨some "boom", none, none, none, none⟩ "boom").1 rfl

/-- C7 (failing evaluation): when the installer process spawns but pip
exits non-zero, `install_requirements` returns normally — the exit status
is never read, so no fatal condition is raised. -/
theorem install_requirements_ignores_installer_failure :
    install_requirements ⟨false, 1⟩ = Except.ok () := rfl

/-- C8 (failing evaluation): in the fallback-download branch, with the
proxy environment variable present and a successful download whose
captured stdout is empty, the warning is still produced, because the
string stdout is compared with the integer 0; the branch does not raise
and still sets the proxy path. -/
theorem check_variables_download_warns_on_success :
    check_variables_download_branch "/home/u"
      ⟨some "/home/u/bin/cloud_sql_proxy", ""⟩ =
      Except.ok ⟨true, "/home/u" ++ "/bin/cloud_sql_proxy"⟩ := rfl
